import Mathlib

/-!
# Verification of the openstack-tenant-cleaner resource managers and configuration parser

Shallow embedding of `openstacktenantcleaner/managers.py` and
`openstacktenantcleanup/configuration.py`.  External library calls
(novaclient/glanceclient backends, `re.compile`, `boltons.parse_timedelta`,
`dateutil.parse`, `logging.getLevelName`) are abstracted as function
parameters; repository code is translated directly.
-/

namespace OpenstackTenantCleaner

/-- Python's `needle in haystack` substring test on strings. -/
def pyInStr (needle haystack : String) : Bool :=
  haystack.data.tails.any (fun t => needle.data.isPrefixOf t)

/-- A `novaclient.exceptions.ClientException`, carrying its `message` attribute. -/
structure ClientException where
  message : String
deriving DecidableEq

/-- The marker that `OpenstackInstanceManager._delete` looks for in a failure
message (`managers.py` line 173). -/
def invalidStateMarker : String := "nova.exception.InstanceInvalidState"

/-- Behaviour of the Nova backend during one `OpenstackInstanceManager._delete`
call: the outcome of the first `servers.force_delete`, of `servers.reset_state`
(if reached), and of the second `servers.force_delete` (if reached).
`none` means the backend call succeeds; `some e` means it raises `e`. -/
structure InstanceDeleteBackend where
  firstForceDelete : Option ClientException
  resetState : Option ClientException
  secondForceDelete : Option ClientException
deriving DecidableEq

/-- A call made to the Nova backend by `OpenstackInstanceManager._delete`. -/
inductive BackendCall
  | forceDelete
  | resetState
deriving DecidableEq

/-- `OpenstackInstanceManager._delete` (`managers.py` lines 169-176): try
`force_delete`; on a `ClientException` whose message does not contain the
invalid-state marker, re-raise it; otherwise `reset_state` (whose own failure
propagates) and `force_delete` once more (whose result, success or failure,
is final).  Returns the trace of backend calls made and the exception that
propagated, if any. -/
def instanceManagerDelete (b : InstanceDeleteBackend) :
    List BackendCall × Option ClientException :=
  match b.firstForceDelete with
  | none => ([.forceDelete], none)
  | some e =>
    if pyInStr invalidStateMarker e.message = false then
      ([.forceDelete], some e)
    else
      match b.resetState with
      | some resetExc => ([.forceDelete, .resetState], some resetExc)
      | none => ([.forceDelete, .resetState, .forceDelete], b.secondForceDelete)

/-- C1: for every instance deletion, a forced delete is attempted first; the
state reset happens iff the first attempt fails with the invalid-state
message; the retry (a second forced delete) happens iff additionally the
reset call succeeds, and then the retry's outcome is final; at most 2 delete
attempts and at most 1 reset occur; any first failure with a different
message propagates with no reset and no retry. -/
theorem c1_instance_delete_retry (b : InstanceDeleteBackend) :
    ((instanceManagerDelete b).1.head? = some .forceDelete)
    ∧ ((instanceManagerDelete b).1.count .forceDelete ≤ 2)
    ∧ ((instanceManagerDelete b).1.count .resetState ≤ 1)
    ∧ (BackendCall.resetState ∈ (instanceManagerDelete b).1 ↔
        ∃ e, b.firstForceDelete = some e ∧ pyInStr invalidStateMarker e.message = true)
    ∧ ((instanceManagerDelete b).1.count .forceDelete = 2 ↔
        ∃ e, b.firstForceDelete = some e ∧ pyInStr invalidStateMarker e.message = true
          ∧ b.resetState = none)
    ∧ (∀ e, b.firstForceDelete = some e → pyInStr invalidStateMarker e.message = false →
        (instanceManagerDelete b).1 = [.forceDelete] ∧ (instanceManagerDelete b).2 = some e)
    ∧ (∀ e, b.firstForceDelete = some e → pyInStr invalidStateMarker e.message = true →
        b.resetState = none →
        (instanceManagerDelete b).1 = [.forceDelete, .resetState, .forceDelete]
        ∧ (instanceManagerDelete b).2 = b.secondForceDelete) := by
  obtain ⟨f, r, s⟩ := b
  cases f with
  | none => simp [instanceManagerDelete]
  | some e =>
    by_cases h : pyInStr invalidStateMarker e.message = false
    · simp [instanceManagerDelete, h, List.count_cons]
    · rw [Bool.not_eq_false] at h
      cases r with
      | none => simp [instanceManagerDelete, h, List.count_cons]
      | some resetExc => simp [instanceManagerDelete, h, List.count_cons]

/-- Witness for C1: a backend failing twice in a row with the invalid-state
message leads to exactly the trace [force_delete, reset_state, force_delete]
and the second failure propagating. -/
theorem c1_witness :
    (instanceManagerDelete
        { firstForceDelete := some { message := "nova.exception.InstanceInvalidState" },
          resetState := none,
          secondForceDelete := some { message := "nova.exception.InstanceInvalidState" } }).1
      = [.forceDelete, .resetState, .forceDelete]
    ∧ (instanceManagerDelete
        { firstForceDelete := some { message := "nova.exception.InstanceInvalidState" },
          resetState := none,
          secondForceDelete := some { message := "nova.exception.InstanceInvalidState" } }).2
      = some { message := "nova.exception.InstanceInvalidState" } := by
  have h := (c1_instance_delete_retry
    { firstForceDelete := some { message := "nova.exception.InstanceInvalidState" },
      resetState := none,
      secondForceDelete := some { message := "nova.exception.InstanceInvalidState" } }).2.2.2.2.2.2
  exact (h { message := "nova.exception.InstanceInvalidState" } rfl (by decide) rfl).imp
    id (fun h2 => h2)

section GenericManager

variable {R E : Type}

/-- The outcome of `Manager.delete`'s validation (`managers.py` lines 88-101):
either a `ValueError` is raised before any backend work, or `self._delete` is
invoked exactly once with the given identifier. -/
inductive DeleteOutcome
  | valueError
  | callDelete (identifier : String)
deriving DecidableEq

/-- `Manager.delete` (`managers.py` lines 88-101): raise `ValueError` when an
item and a different identifier are both given, or when neither is given;
otherwise call `self._delete` with the explicit identifier if given, else the
item's identifier. -/
def managerDelete (idOf : E → String) (item : Option E) (identifier : Option String) :
    DeleteOutcome :=
  match item, identifier with
  | some it, some ident =>
      if idOf it ≠ ident then .valueError else .callDelete ident
  | none, none => .valueError
  | some it, none => .callDelete (idOf it)
  | none, some ident => .callDelete ident

/-- C9: `Manager.delete` raises `ValueError` with no backend deletion when
called with neither an item nor an identifier, or with both when their
identifiers disagree; otherwise it performs exactly one kind-specific deletion
using the explicit identifier if given, else the item's identifier. -/
theorem c9_manager_delete_validation (idOf : E → String) (item : Option E)
    (identifier : Option String) :
    (item = none → identifier = none →
      managerDelete idOf item identifier = .valueError)
    ∧ (∀ it ident, item = some it → identifier = some ident → idOf it ≠ ident →
      managerDelete idOf item identifier = .valueError)
    ∧ (∀ it ident, item = some it → identifier = some ident → idOf it = ident →
      managerDelete idOf item identifier = .callDelete ident)
    ∧ (∀ it, item = some it → identifier = none →
      managerDelete idOf item identifier = .callDelete (idOf it))
    ∧ (∀ ident, item = none → identifier = some ident →
      managerDelete idOf item identifier = .callDelete ident) := by
  refine ⟨?_, ?_, ?_, ?_, ?_⟩
  · rintro rfl rfl; rfl
  · rintro it ident rfl rfl h; simp [managerDelete, h]
  · rintro it ident rfl rfl h; simp [managerDelete, h]
  · rintro it rfl rfl; rfl
  · rintro ident rfl rfl; rfl

/-- Witness for C9: with an item whose identifier is "kp-1" and the explicit
identifier "kp-2", `delete` raises `ValueError`; with only the item it calls
the kind-specific deletion on "kp-1". -/
theorem c9_witness :
    managerDelete (fun s : String => s) (some "kp-1") (some "kp-2") = .valueError
    ∧ managerDelete (fun s : String => s) (some "kp-1") none = .callDelete "kp-1" := by
  refine ⟨?_, ?_⟩
  · exact (c9_manager_delete_validation (fun s : String => s) (some "kp-1")
      (some "kp-2")).2.1 "kp-1" "kp-2" rfl rfl (by decide)
  · exact (c9_manager_delete_validation (fun s : String => s) (some "kp-1")
      none).2.2.2.1 "kp-1" rfl rfl

/-- Modelled from the spec: `OpenstackItem.__eq__`/`__hash__` compare by
`identifier` alone (`openstacktenantcleaner/models.py`, not under src/;
spec section 3: "Equality/hash is defined by identifier alone").  This is
Python's `set.add` under that equality: adding an element whose identifier is
already present leaves the set unchanged. -/
def pySetAdd (idOf : E → String) (s : List E) (e : E) : List E :=
  if s.any (fun x => idOf x == idOf e) then s else s ++ [e]

/-- The loop of `Manager.get_all` (`managers.py` lines 83-85). -/
def getAllLoop (idOf : E → String) (convert : R → E) (raws : List R) (acc : List E) :
    List E :=
  match raws with
  | [] => acc
  | r :: rest => getAllLoop idOf convert rest (pySetAdd idOf acc (convert r))

/-- `Manager.get_all` (`managers.py` lines 78-86): convert every raw backend
record and add it to a set keyed by identifier. -/
def getAll (idOf : E → String) (convert : R → E) (raws : List R) : List E :=
  getAllLoop idOf convert raws []

lemma mem_pySetAdd_of_mem (idOf : E → String) (s : List E) (e : E) :
    ∀ x ∈ s, x ∈ pySetAdd idOf s e := by
  intro x hx
  unfold pySetAdd
  split
  · exact hx
  · exact List.mem_append_left _ hx

lemma mem_of_mem_pySetAdd (idOf : E → String) (s : List E) (e : E) :
    ∀ x ∈ pySetAdd idOf s e, x ∈ s ∨ x = e := by
  intro x hx
  unfold pySetAdd at hx
  split at hx
  · exact .inl hx
  · rcases List.mem_append.mp hx with h | h
    · exact .inl h
    · exact .inr (List.mem_singleton.mp h)

lemma pySetAdd_id_covered (idOf : E → String) (s : List E) (e : E) :
    ∃ y ∈ pySetAdd idOf s e, idOf y = idOf e := by
  unfold pySetAdd
  split
  · next h =>
    obtain ⟨x, hx, hid⟩ := List.any_eq_true.mp h
    exact ⟨x, hx, by simpa using hid⟩
  · exact ⟨e, List.mem_append_right _ (List.mem_singleton.mpr rfl), rfl⟩

lemma pySetAdd_nodup (idOf : E → String) (s : List E) (e : E)
    (h : (s.map idOf).Nodup) : ((pySetAdd idOf s e).map idOf).Nodup := by
  unfold pySetAdd
  split
  · exact h
  · next hfalse =>
    rw [List.map_append, List.map_singleton]
    refine List.Nodup.append h (List.nodup_singleton _) ?_
    intro a ha hb
    obtain ⟨x, hx, rfl⟩ := List.mem_map.mp ha
    have := List.mem_singleton.mp hb
    have hany : s.any (fun y => idOf y == idOf e) = true :=
      List.any_eq_true.mpr ⟨x, hx, by simp [this]⟩
    simp [hany] at hfalse

lemma getAllLoop_spec (idOf : E → String) (convert : R → E) (raws : List R) :
    ∀ acc : List E,
    (∀ x ∈ getAllLoop idOf convert raws acc, x ∈ acc ∨ ∃ r ∈ raws, x = convert r)
    ∧ (∀ x ∈ acc, x ∈ getAllLoop idOf convert raws acc)
    ∧ (∀ r ∈ raws, ∃ y ∈ getAllLoop idOf convert raws acc, idOf y = idOf (convert r))
    ∧ ((acc.map idOf).Nodup → ((getAllLoop idOf convert raws acc).map idOf).Nodup) := by
  induction raws with
  | nil => intro acc; simp [getAllLoop]
  | cons r rest ih =>
    intro acc
    obtain ⟨A, B, C, D⟩ := ih (pySetAdd idOf acc (convert r))
    refine ⟨?_, ?_, ?_, ?_⟩
    · intro x hx
      rcases A x hx with h | ⟨r', hr', rfl⟩
      · rcases mem_of_mem_pySetAdd idOf acc (convert r) x h with h2 | h2
        · exact .inl h2
        · exact .inr ⟨r, List.mem_cons_self _ _, h2⟩
      · exact .inr ⟨r', List.mem_cons_of_mem _ hr', rfl⟩
    · intro x hx
      exact B x (mem_pySetAdd_of_mem idOf acc (convert r) x hx)
    · intro r' hr'
      rcases List.mem_cons.mp hr' with rfl | h
      · obtain ⟨y, hy, hid⟩ := pySetAdd_id_covered idOf acc (convert r')
        exact ⟨y, B y hy, hid⟩
      · exact C r' h
    · intro hnd
      exact D (pySetAdd_nodup idOf acc (convert r) hnd)

/-- C2: `get_all` returns exactly the domain conversions of the raw records —
every member is the conversion of some raw record, every raw record's
conversion is represented (up to entity equality, i.e. by identifier) — and
no two members share an identifier. -/
theorem c2_get_all (idOf : E → String) (convert : R → E) (raws : List R) :
    (∀ x ∈ getAll idOf convert raws, ∃ r ∈ raws, x = convert r)
    ∧ (∀ r ∈ raws, ∃ y ∈ getAll idOf convert raws, idOf y = idOf (convert r))
    ∧ ((getAll idOf convert raws).map idOf).Nodup := by
  obtain ⟨A, _, C, D⟩ := getAllLoop_spec idOf convert raws []
  refine ⟨?_, C, D (by simp)⟩
  intro x hx
  rcases A x hx with h | h
  · simp at h
  · exact h

/-- Witness for C2: duplicate identifiers in the raw records collapse to a
single member, the first occurrence winning, and identifiers are distinct. -/
theorem c2_witness :
    (∀ x ∈ getAll (Prod.fst (β := String)) id
        [("a", "one"), ("a", "two"), ("b", "three")],
      ∃ r ∈ [("a", "one"), ("a", "two"), ("b", "three")], x = id r)
    ∧ ((getAll (Prod.fst (β := String)) id
        [("a", "one"), ("a", "two"), ("b", "three")]).map Prod.fst).Nodup := by
  have h := c2_get_all (Prod.fst (β := String)) id
    [("a", "one"), ("a", "two"), ("b", "three")]
  exact ⟨h.1, h.2.2⟩

/-- A failure reported by a backend fetch-by-id: the backend raises its
not-found exception when no resource has the identifier, or some other client
exception. -/
inductive FetchFailure
  | notFound
  | otherFailure (e : ClientException)
deriving DecidableEq

/-- `Manager.get_by_id` (`managers.py` lines 69-76): fetch the raw record
(whose failure propagates) and return its domain conversion.  The backend is
called exactly once; nothing is retried. -/
def getById (backendGet : String → Except FetchFailure R) (convert : R → E)
    (identifier : String) : Except FetchFailure E :=
  (backendGet identifier).map convert

/-- C4: when the backend reports no resource with the identifier,
`get_by_id` fails with the not-found error, surfaced unchanged to the caller;
when the backend returns a raw record, `get_by_id` returns exactly its domain
conversion. -/
theorem c4_get_by_id (backendGet : String → Except FetchFailure R) (convert : R → E)
    (identifier : String) :
    (backendGet identifier = .error .notFound →
      getById backendGet convert identifier = .error .notFound)
    ∧ (∀ r, backendGet identifier = .ok r →
      getById backendGet convert identifier = .ok (convert r)) := by
  refine ⟨?_, ?_⟩
  · intro h; simp [getById, h, Except.map]
  · intro r h; simp [getById, h, Except.map]

/-- Witness for C4: a backend with no resources makes `get_by_id` fail with
the not-found error; a backend holding a record returns its conversion. -/
theorem c4_witness :
    getById (fun _ : String => (.error .notFound : Except FetchFailure String))
        (fun r => r ++ "!") "x" = .error .notFound
    ∧ getById (fun _ : String => (.ok "raw" : Except FetchFailure String))
        (fun r => r ++ "!") "x" = .ok "raw!" := by
  refine ⟨?_, ?_⟩
  · exact (c4_get_by_id (fun _ : String => (.error .notFound : Except FetchFailure String))
      (fun r => r ++ "!") "x").1 rfl
  · exact (c4_get_by_id (fun _ : String => (.ok "raw" : Except FetchFailure String))
      (fun r => r ++ "!") "x").2 "raw" rfl

end GenericManager

/-- Modelled from the spec: the key-pair entity (`openstacktenantcleaner/models.py`
is not under src/; spec section 3: "Keypair: identifier = name; fingerprint").
`OpenstackKeypairManager._convert_raw` (`managers.py` lines 134-139) fills
these fields. -/
structure OpenstackKeypair where
  identifier : String
  name : String
  fingerprint : String
deriving DecidableEq

/-- A failure surfacing from a `Manager.delete` call.  `backendFailure` is the
backend's own exception propagating unchanged, which is what the code under
src/ produces; `deletionError` is the wrapper the spec describes, kept here
only so the two behaviours can be compared — no definition translated from
the source ever constructs it. -/
inductive ManagerFailure
  | valueError
  | backendFailure (e : ClientException)
  | deletionError (wrapped : ClientException)
deriving DecidableEq

/-- The full `delete` path for key-pairs: `Manager.delete` validation
(`managers.py` lines 88-101) followed by `OpenstackKeypairManager._delete`
(`managers.py` lines 141-142), which calls `keypairs.delete` once and lets
any backend exception propagate unchanged. -/
def keypairFullDelete (backendDelete : String → Option ClientException)
    (item : Option OpenstackKeypair) (identifier : Option String) :
    Except ManagerFailure Unit :=
  match managerDelete (fun kp => kp.identifier) item identifier with
  | .valueError => .error .valueError
  | .callDelete ident =>
    match backendDelete ident with
    | none => .ok ()
    | some e => .error (.backendFailure e)

/-- Follows the spec's words, for comparison with `keypairFullDelete`:
"fails with DeletionError wrapping the underlying backend error"
(spec section 4.1). -/
def keypairFullDeleteSpec (backendDelete : String → Option ClientException)
    (item : Option OpenstackKeypair) (identifier : Option String) :
    Except ManagerFailure Unit :=
  match managerDelete (fun kp => kp.identifier) item identifier with
  | .valueError => .error .valueError
  | .callDelete ident =>
    match backendDelete ident with
    | none => .ok ()
    | some e => .error (.deletionError e)

/-- Counterexample to C3: when the backend refuses to delete key-pair "kp-1"
with a conflict exception, the code surfaces that backend exception itself,
not a `DeletionError` wrapping it — the code's behaviour differs from the
spec-worded behaviour at this input. -/
theorem c3_counterexample :
    keypairFullDelete (fun _ => some { message := "409 Conflict" })
        (some { identifier := "kp-1", name := "kp-1", fingerprint := "fp" }) none
      = .error (.backendFailure { message := "409 Conflict" })
    ∧ keypairFullDelete (fun _ => some { message := "409 Conflict" })
        (some { identifier := "kp-1", name := "kp-1", fingerprint := "fp" }) none
      ≠ keypairFullDeleteSpec (fun _ => some { message := "409 Conflict" })
        (some { identifier := "kp-1", name := "kp-1", fingerprint := "fp" }) none := by
  refine ⟨rfl, ?_⟩
  intro h
  simp [keypairFullDelete, keypairFullDeleteSpec, managerDelete] at h

/-- C3 as amended: for key-pairs, which have no retry policy, every backend
deletion failure surfaces as the underlying backend error itself — the code
defines no `DeletionError` wrapper, so the failure is never a wrapped
`deletionError`. -/
theorem c3_keypair_delete_propagates (backendDelete : String → Option ClientException)
    (kp : OpenstackKeypair) (e : ClientException)
    (h : backendDelete kp.identifier = some e) :
    keypairFullDelete backendDelete (some kp) none = .error (.backendFailure e)
    ∧ ∀ w, keypairFullDelete backendDelete (some kp) none ≠ .error (.deletionError w) := by
  have hres : keypairFullDelete backendDelete (some kp) none
      = .error (.backendFailure e) := by
    simp [keypairFullDelete, managerDelete, h]
  refine ⟨hres, ?_⟩
  intro w hw
  rw [hres] at hw
  simp at hw

/-- Witness for C3's amended theorem at a concrete backend and key-pair. -/
theorem c3_witness :
    keypairFullDelete (fun _ => some { message := "403 Forbidden" })
        (some { identifier := "kp-2", name := "kp-2", fingerprint := "fp" }) none
      = .error (.backendFailure { message := "403 Forbidden" }) :=
  (c3_keypair_delete_propagates (fun _ => some { message := "403 Forbidden" })
    { identifier := "kp-2", name := "kp-2", fingerprint := "fp" }
    { message := "403 Forbidden" } rfl).1

/-- Modelled from the spec: the instance entity (`openstacktenantcleaner/models.py`
is not under src/; spec section 3: identifier, name, created_at, updated_at,
image reference, optional key_name).  Timestamps are the parsed values. -/
structure OpenstackInstance where
  identifier : String
  name : String
  created_at : Nat
  updated_at : Nat
  image : String
  key_name : Option String
deriving DecidableEq

/-- A raw `novaclient.v2.servers.Server` record as
`OpenstackInstanceManager._convert_raw` reads it: `image` is the image dict
when the server has an image reference (`none` models a server whose image
attribute is not a subscriptable dict, e.g. booted from a volume), and
`key_name` is `None` when no key-pair is attached. -/
structure RawServer where
  id : String
  name : String
  created : String
  updated : String
  image : Option (List (String × String))
  key_name : Option String
deriving DecidableEq

/-- How `OpenstackInstanceManager._convert_raw` can crash. -/
inductive ConversionFailure
  | badDatetime
  | imageNotSubscriptable
  | imageKeyMissing
deriving DecidableEq

/-- `dateutil.parser.parse`, abstracted: the parser `pd` yields `none` exactly
when the Python call raises. -/
def pyParseDatetime (pd : String → Option Nat) (s : String) :
    Except ConversionFailure Nat :=
  match pd s with
  | none => .error .badDatetime
  | some v => .ok v

/-- Python's `d["id"]` on the raw image attribute: a `TypeError` when the
attribute is not a dict, a `KeyError` when the key is absent. -/
def pySubscriptImage (d : Option (List (String × String))) (k : String) :
    Except ConversionFailure String :=
  match d with
  | none => .error .imageNotSubscriptable
  | some entries =>
    match (entries.find? (fun kv => kv.1 == k)).map (fun kv => kv.2) with
    | none => .error .imageKeyMissing
    | some v => .ok v

/-- `OpenstackInstanceManager._convert_raw` (`managers.py` lines 159-167):
the keyword arguments are evaluated in source order — the timestamps are
parsed, `model.image["id"]` is subscripted unconditionally, and
`model.key_name` is passed through as-is (`None` stays `None`). -/
def instanceConvertRaw (pd : String → Option Nat) (m : RawServer) :
    Except ConversionFailure OpenstackInstance := do
  let c ← pyParseDatetime pd m.created
  let u ← pyParseDatetime pd m.updated
  let img ← pySubscriptImage m.image "id"
  return { identifier := m.id, name := m.name, created_at := c, updated_at := u,
           image := img, key_name := m.key_name }

/-- Counterexample to C5: a server record whose image reference is absent
makes the conversion crash on `model.image["id"]` instead of mapping the
image to an absent marker. -/
theorem c5_counterexample :
    instanceConvertRaw (fun _ => some 0)
      { id := "inst-1", name := "vm", created := "2017-01-01", updated := "2017-01-02",
        image := none, key_name := none }
      = .error .imageNotSubscriptable := rfl

/-- C5 as amended: the conversion succeeds on every record whose timestamps
parse and whose image dict carries an "id" entry, passing a missing key-pair
through as the explicit absent marker `none` (never a placeholder string);
but it does not tolerate an absent image reference — there it fails. -/
theorem c5_convert_behaviour (pd : String → Option Nat) (m : RawServer) :
    (∀ c u d img, pd m.created = some c → pd m.updated = some u →
      m.image = some d → (d.find? (fun kv => kv.1 == "id")).map (fun kv => kv.2) = some img →
      instanceConvertRaw pd m =
        .ok { identifier := m.id, name := m.name, created_at := c, updated_at := u,
              image := img, key_name := m.key_name })
    ∧ (∀ c u, pd m.created = some c → pd m.updated = some u → m.image = none →
      instanceConvertRaw pd m = .error .imageNotSubscriptable) := by
  refine ⟨?_, ?_⟩
  · intro c u d img hc hu hd hid
    simp [instanceConvertRaw, pyParseDatetime, pySubscriptImage, hc, hu, hd, hid,
      Bind.bind, Except.bind, Pure.pure, Except.pure]
  · intro c u hc hu hd
    simp [instanceConvertRaw, pyParseDatetime, pySubscriptImage, hc, hu, hd,
      Bind.bind, Except.bind]

/-- Witness for C5's amended theorem: a record with an image dict and no
attached key-pair converts with `key_name = none`. -/
theorem c5_witness :
    instanceConvertRaw (fun _ => some 7)
      { id := "inst-2", name := "vm2", created := "2017-02-01", updated := "2017-02-02",
        image := some [("id", "img-9")], key_name := none }
      = .ok { identifier := "inst-2", name := "vm2", created_at := 7, updated_at := 7,
              image := "img-9", key_name := none } :=
  (c5_convert_behaviour (fun _ => some 7)
    { id := "inst-2", name := "vm2", created := "2017-02-01", updated := "2017-02-02",
      image := some [("id", "img-9")], key_name := none }).1
    7 7 [("id", "img-9")] "img-9" rfl rfl rfl rfl

/-! ## Configuration parsing (`openstacktenantcleanup/configuration.py`)

`re.compile` and `boltons.timeutils.parse_timedelta` are external libraries,
abstracted as parameters `rcmp : String → Option String` (a compiled pattern,
`none` when the call raises) and `tdp : String → Option Nat` (a parsed
duration in seconds, `none` when the call raises). -/

/-- A prevent-delete detector as installed by `parse_configuration`.  The
constructors correspond to `created_exclude_detector`,
`create_delete_if_older_than_detector`,
`prevent_delete_protected_image_detector`,
`prevent_delete_image_in_use_detector` and
`prevent_delete_key_pair_in_use_detector` from
`openstacktenantcleanup/detectors.py`. -/
inductive Detector
  | excludeDet (patterns : List String)
  | olderThanDet (seconds : Nat)
  | protectedImageDet
  | imageInUseDet
  | keyPairInUseDet
deriving DecidableEq

/-- One cleanup area section of the raw YAML configuration (the value under
"images", "instances" or "key-pairs"): the optional "exclude",
"remove-if-older-than" and "remove-only-if-unused" keys. -/
structure RawAreaConfig where
  exclude : Option (List String)
  removeIfOlderThan : Option String
  removeOnlyIfUnused : Option Bool
deriving DecidableEq

/-- An exception escaping `parse_configuration`: `re.compile` raised on an
invalid pattern, `parse_timedelta` raised on an invalid duration, or a
mandatory key was absent (`KeyError`). -/
inductive ConfigError
  | regexError
  | timedeltaError
  | keyError
deriving DecidableEq

/-- The list comprehension `[re.compile(exclude) for exclude in ...]`
(`configuration.py` line 89): compile each pattern in order, the first
failure raising. -/
def compileAll (rcmp : String → Option String) : List String → Except ConfigError (List String)
  | [] => .ok []
  | p :: ps =>
    match rcmp p with
    | none => .error .regexError
    | some c => (compileAll rcmp ps).map (fun cs => c :: cs)

/-- The "exclude" `if` of `_create_common_prevent_delete_detectors`
(`configuration.py` lines 88-90). -/
def excludePart (rcmp : String → Option String) (p : RawAreaConfig) :
    Except ConfigError (List Detector) :=
  match p.exclude with
  | none => .ok []
  | some pats =>
    match compileAll rcmp pats with
    | .error e => .error e
    | .ok cs => .ok [Detector.excludeDet cs]

/-- The "remove-if-older-than" `if` of `_create_common_prevent_delete_detectors`
(`configuration.py` lines 92-94). -/
def olderThanPart (tdp : String → Option Nat) (p : RawAreaConfig) :
    Except ConfigError (List Detector) :=
  match p.removeIfOlderThan with
  | none => .ok []
  | some s =>
    match tdp s with
    | none => .error .timedeltaError
    | some n => .ok [Detector.olderThanDet n]

/-- `_create_common_prevent_delete_detectors` (`configuration.py` lines
80-96): an exclude detector when the "exclude" key is present, then an
older-than detector when the "remove-if-older-than" key is present. -/
def createCommonPreventDeleteDetectors (rcmp : String → Option String)
    (tdp : String → Option Nat) (p : RawAreaConfig) :
    Except ConfigError (List Detector) :=
  match excludePart rcmp p with
  | .error e => .error e
  | .ok d1 =>
    match olderThanPart tdp p with
    | .error e => .error e
    | .ok d2 => .ok (d1 ++ d2)

/-- The images branch of `parse_configuration` (`configuration.py` lines
128-133): the common detectors, then the protected-image detector and the
image-in-use detector, appended unconditionally. -/
def parseImagesDetectors (rcmp : String → Option String) (tdp : String → Option Nat)
    (p : RawAreaConfig) : Except ConfigError (List Detector) :=
  match createCommonPreventDeleteDetectors rcmp tdp p with
  | .error e => .error e
  | .ok ds => .ok (ds ++ [Detector.protectedImageDet, Detector.imageInUseDet])

/-- The instances branch of `parse_configuration` (`configuration.py` lines
135-138): just the common detectors. -/
def parseInstancesDetectors (rcmp : String → Option String) (tdp : String → Option Nat)
    (p : RawAreaConfig) : Except ConfigError (List Detector) :=
  createCommonPreventDeleteDetectors rcmp tdp p

/-- The key-pairs branch of `parse_configuration` (`configuration.py` lines
140-147): the common detectors, then — reading the "remove-only-if-unused"
key unconditionally, so its absence raises `KeyError` — the key-pair in-use
detector exactly when that key's value is truthy. -/
def parseKeyPairsDetectors (rcmp : String → Option String) (tdp : String → Option Nat)
    (p : RawAreaConfig) : Except ConfigError (List Detector) :=
  match createCommonPreventDeleteDetectors rcmp tdp p with
  | .error e => .error e
  | .ok ds =>
    match p.removeOnlyIfUnused with
    | none => .error .keyError
    | some b => .ok (if b then ds ++ [Detector.keyPairInUseDet] else ds)

/-- Modelled from the spec: the image entity (`openstacktenantcleaner/models.py`
is not under src/; spec section 3: identifier, name, timestamps, and the
backend's `protected` flag). -/
structure OpenstackImage where
  identifier : String
  name : String
  created_at : Nat
  updated_at : Nat
  «protected» : Bool
deriving DecidableEq

/-- Modelled from the spec: the image detector predicates of
`openstacktenantcleanup/detectors.py`, which is not under src/ (spec section
4.2): the protected-flag detector forbids deletion when the raw `protected`
flag is true; the image-in-use detector forbids deletion when any instance in
the snapshot references the image's identifier; the exclude detector matches
the name against the patterns (`rmatch` abstracts regex search); the
age-threshold detector forbids deletion when `created_at` is newer than
now minus the duration. -/
def imageDetectorVetoes (rmatch : String → String → Bool) (now : Nat)
    (instances : List OpenstackInstance) (d : Detector) (img : OpenstackImage) : Bool :=
  match d with
  | .excludeDet pats => pats.any (fun p => rmatch p img.name)
  | .olderThanDet secs => decide (now < img.created_at + secs)
  | .protectedImageDet => img.«protected»
  | .imageInUseDet => instances.any (fun i => i.image == img.identifier)
  | .keyPairInUseDet => false

/-- Modelled from the spec: the key-pair in-use predicate of
`openstacktenantcleanup/detectors.py`, which is not under src/ (spec section
4.2): a key-pair is in use when any current instance references its name. -/
def keyPairInUseVeto (instances : List OpenstackInstance) (kp : OpenstackKeypair) : Bool :=
  instances.any (fun i => i.key_name == some kp.name)

/-- One credential entry of a raw cleanup section. -/
structure RawCredential where
  username : String
  password : String
deriving DecidableEq

/-- One entry of the raw "cleanup" list, with its optional area sections. -/
structure RawCleanup where
  openstackAuthUrl : String
  tenant : String
  credentials : List RawCredential
  instances : Option RawAreaConfig
  images : Option RawAreaConfig
  keyPairs : Option RawAreaConfig
deriving DecidableEq

/-- The raw "general" section. -/
structure RawGeneral where
  runEvery : String
  logLocation : String
  logLevel : String
deriving DecidableEq

/-- A whole raw configuration file, already YAML-decoded. -/
structure RawConfiguration where
  general : RawGeneral
  cleanup : List RawCleanup
deriving DecidableEq

/-- `OpenstackCredentials` as built by `parse_configuration`
(`configuration.py` lines 121-126). -/
structure OpenstackCredentials where
  authUrl : String
  tenant : String
  username : String
  password : String
deriving DecidableEq

/-- `CleanupConfiguration.cleanup_areas`: a dict keyed by the three manager
types, each holding that area's prevent-delete detectors. -/
structure CleanupAreas where
  instancesDetectors : Option (List Detector) := none
  imagesDetectors : Option (List Detector) := none
  keyPairsDetectors : Option (List Detector) := none
deriving DecidableEq

/-- The parsed `Configuration` (`configuration.py` lines 71-77, 149-152),
with the general section flattened in. -/
structure Configuration where
  runPeriod : Nat
  logLocation : String
  logLevel : Int
  credentials : List OpenstackCredentials
  cleanupAreas : CleanupAreas
deriving DecidableEq

/-- The images `if` of the cleanup loop (`configuration.py` lines 128-133). -/
def applyImagesBranch (rcmp : String → Option String) (tdp : String → Option Nat)
    (rc : RawCleanup) (areas : CleanupAreas) : Except ConfigError CleanupAreas :=
  match rc.images with
  | none => .ok areas
  | some p =>
    match parseImagesDetectors rcmp tdp p with
    | .error e => .error e
    | .ok ds => .ok { areas with imagesDetectors := some ds }

/-- The instances `if` of the cleanup loop (`configuration.py` lines
135-138). -/
def applyInstancesBranch (rcmp : String → Option String) (tdp : String → Option Nat)
    (rc : RawCleanup) (areas : CleanupAreas) : Except ConfigError CleanupAreas :=
  match rc.instances with
  | none => .ok areas
  | some p =>
    match parseInstancesDetectors rcmp tdp p with
    | .error e => .error e
    | .ok ds => .ok { areas with instancesDetectors := some ds }

/-- The key-pairs `if` of the cleanup loop (`configuration.py` lines
140-147). -/
def applyKeyPairsBranch (rcmp : String → Option String) (tdp : String → Option Nat)
    (rc : RawCleanup) (areas : CleanupAreas) : Except ConfigError CleanupAreas :=
  match rc.keyPairs with
  | none => .ok areas
  | some p =>
    match parseKeyPairsDetectors rcmp tdp p with
    | .error e => .error e
    | .ok ds => .ok { areas with keyPairsDetectors := some ds }

/-- One iteration of the `for raw_cleanup in ...` loop (`configuration.py`
lines 118-147): append the credentials, then run the images, instances and
key-pairs branches in source order. -/
def processCleanupEntry (rcmp : String → Option String) (tdp : String → Option Nat)
    (st : List OpenstackCredentials × CleanupAreas) (rc : RawCleanup) :
    Except ConfigError (List OpenstackCredentials × CleanupAreas) :=
  let creds := st.1 ++ rc.credentials.map (fun c =>
    { authUrl := rc.openstackAuthUrl, tenant := rc.tenant,
      username := c.username, password := c.password })
  match applyImagesBranch rcmp tdp rc st.2 with
  | .error e => .error e
  | .ok a1 =>
    match applyInstancesBranch rcmp tdp rc a1 with
    | .error e => .error e
    | .ok a2 =>
      match applyKeyPairsBranch rcmp tdp rc a2 with
      | .error e => .error e
      | .ok a3 => .ok (creds, a3)

/-- The cleanup loop folded over all entries. -/
def foldCleanup (rcmp : String → Option String) (tdp : String → Option Nat) :
    List RawCleanup → List OpenstackCredentials × CleanupAreas →
    Except ConfigError (List OpenstackCredentials × CleanupAreas)
  | [], st => .ok st
  | rc :: rest, st =>
    match processCleanupEntry rcmp tdp st rc with
    | .error e => .error e
    | .ok st2 => foldCleanup rcmp tdp rest st2

/-- `parse_configuration` (`configuration.py` lines 99-152): parse the
general section (whose `parse_timedelta` may raise), then run the cleanup
loop from an empty configuration.  `getLevel` abstracts
`logging.getLevelName(... .upper())`.  No backend client is constructed
anywhere in this function — its inputs are only the raw configuration and
the parsing helpers. -/
def parseConfiguration (rcmp : String → Option String) (tdp : String → Option Nat)
    (getLevel : String → Int) (raw : RawConfiguration) :
    Except ConfigError Configuration :=
  match tdp raw.general.runEvery with
  | none => .error .timedeltaError
  | some runPeriod =>
    match foldCleanup rcmp tdp raw.cleanup ([], {}) with
    | .error e => .error e
    | .ok st =>
      .ok { runPeriod := runPeriod, logLocation := raw.general.logLocation,
            logLevel := getLevel raw.general.logLevel,
            credentials := st.1, cleanupAreas := st.2 }

lemma parseImagesDetectors_mem (rcmp : String → Option String) (tdp : String → Option Nat)
    (p : RawAreaConfig) (L : List Detector)
    (h : parseImagesDetectors rcmp tdp p = .ok L) :
    Detector.protectedImageDet ∈ L ∧ Detector.imageInUseDet ∈ L := by
  unfold parseImagesDetectors at h
  cases hc : createCommonPreventDeleteDetectors rcmp tdp p with
  | error e => rw [hc] at h; cases h
  | ok ds =>
    rw [hc] at h
    injection h with h
    subst h
    constructor <;> simp

/-- Invariant carried through the cleanup loop for claim C6: whenever the
images area has been configured, its detector list contains the
protected-image and image-in-use detectors. -/
def ImagesWF (areas : CleanupAreas) : Prop :=
  ∀ L, areas.imagesDetectors = some L →
    Detector.protectedImageDet ∈ L ∧ Detector.imageInUseDet ∈ L

lemma applyImagesBranch_wf (rcmp : String → Option String) (tdp : String → Option Nat)
    (rc : RawCleanup) (areas a1 : CleanupAreas)
    (h : applyImagesBranch rcmp tdp rc areas = .ok a1) (hw : ImagesWF areas) :
    ImagesWF a1 := by
  cases hi : rc.images with
  | none =>
    simp [applyImagesBranch, hi] at h
    subst h
    exact hw
  | some p =>
    cases hp : parseImagesDetectors rcmp tdp p with
    | error e => simp [applyImagesBranch, hi, hp] at h
    | ok ds =>
      simp [applyImagesBranch, hi, hp] at h
      subst h
      intro L hL
      have hL2 : some ds = some L := hL
      injection hL2 with hL2
      subst hL2
      exact parseImagesDetectors_mem rcmp tdp p ds hp

lemma applyInstancesBranch_imagesEq (rcmp : String → Option String)
    (tdp : String → Option Nat) (rc : RawCleanup) (areas a2 : CleanupAreas)
    (h : applyInstancesBranch rcmp tdp rc areas = .ok a2) :
    a2.imagesDetectors = areas.imagesDetectors := by
  cases hi : rc.instances with
  | none => simp [applyInstancesBranch, hi] at h; subst h; rfl
  | some p =>
    cases hp : parseInstancesDetectors rcmp tdp p with
    | error e => simp [applyInstancesBranch, hi, hp] at h
    | ok ds => simp [applyInstancesBranch, hi, hp] at h; subst h; rfl

lemma applyKeyPairsBranch_imagesEq (rcmp : String → Option String)
    (tdp : String → Option Nat) (rc : RawCleanup) (areas a2 : CleanupAreas)
    (h : applyKeyPairsBranch rcmp tdp rc areas = .ok a2) :
    a2.imagesDetectors = areas.imagesDetectors := by
  cases hi : rc.keyPairs with
  | none => simp [applyKeyPairsBranch, hi] at h; subst h; rfl
  | some p =>
    cases hp : parseKeyPairsDetectors rcmp tdp p with
    | error e => simp [applyKeyPairsBranch, hi, hp] at h
    | ok ds => simp [applyKeyPairsBranch, hi, hp] at h; subst h; rfl

lemma processCleanupEntry_wf (rcmp : String → Option String) (tdp : String → Option Nat)
    (st st2 : List OpenstackCredentials × CleanupAreas) (rc : RawCleanup)
    (h : processCleanupEntry rcmp tdp st rc = .ok st2) (hw : ImagesWF st.2) :
    ImagesWF st2.2 := by
  cases h1 : applyImagesBranch rcmp tdp rc st.2 with
  | error e => simp [processCleanupEntry, h1] at h
  | ok a1 =>
    cases h2 : applyInstancesBranch rcmp tdp rc a1 with
    | error e => simp [processCleanupEntry, h1, h2] at h
    | ok a2 =>
      cases h3 : applyKeyPairsBranch rcmp tdp rc a2 with
      | error e => simp [processCleanupEntry, h1, h2, h3] at h
      | ok a3 =>
        simp [processCleanupEntry, h1, h2, h3] at h
        subst h
        have w1 := applyImagesBranch_wf rcmp tdp rc st.2 a1 h1 hw
        intro L hL
        simp only at hL
        rw [applyKeyPairsBranch_imagesEq rcmp tdp rc a2 a3 h3,
          applyInstancesBranch_imagesEq rcmp tdp rc a1 a2 h2] at hL
        exact w1 L hL

lemma foldCleanup_wf (rcmp : String → Option String) (tdp : String → Option Nat) :
    ∀ (l : List RawCleanup) (st out : List OpenstackCredentials × CleanupAreas),
    foldCleanup rcmp tdp l st = .ok out → ImagesWF st.2 → ImagesWF out.2 := by
  intro l
  induction l with
  | nil =>
    intro st out h hw
    unfold foldCleanup at h
    injection h with h
    subst h
    exact hw
  | cons rc rest ih =>
    intro st out h hw
    unfold foldCleanup at h
    cases hp : processCleanupEntry rcmp tdp st rc with
    | error e => rw [hp] at h; cases h
    | ok st2 =>
      rw [hp] at h
      exact ih st2 out h (processCleanupEntry_wf rcmp tdp st st2 rc hp hw)

/-- C6: every parsed configuration that configures the images area installs
both the protected-image and image-in-use detectors, regardless of the
exclude/age policy, so under OR-composition every image whose `protected`
flag is true is vetoed by some detector in every cycle. -/
theorem c6_protected_image_always_kept (rcmp : String → Option String)
    (tdp : String → Option Nat) (getLevel : String → Int) (raw : RawConfiguration)
    (cfg : Configuration)
    (h : parseConfiguration rcmp tdp getLevel raw = .ok cfg)
    (L : List Detector) (hL : cfg.cleanupAreas.imagesDetectors = some L) :
    Detector.protectedImageDet ∈ L ∧ Detector.imageInUseDet ∈ L
    ∧ ∀ (rmatch : String → String → Bool) (now : Nat)
        (instances : List OpenstackInstance) (img : OpenstackImage),
        img.«protected» = true →
        L.any (fun d => imageDetectorVetoes rmatch now instances d img) = true := by
  unfold parseConfiguration at h
  cases ht : tdp raw.general.runEvery with
  | none => rw [ht] at h; cases h
  | some runPeriod =>
    rw [ht] at h
    cases hf : foldCleanup rcmp tdp raw.cleanup ([], {}) with
    | error e => rw [hf] at h; cases h
    | ok st =>
      rw [hf] at h
      injection h with h
      subst h
      have hw : ImagesWF st.2 :=
        foldCleanup_wf rcmp tdp raw.cleanup ([], {}) st hf
          (fun L hL => Option.noConfusion hL)
      obtain ⟨h1, h2⟩ := hw L hL
      refine ⟨h1, h2, ?_⟩
      intro rmatch now instances img himg
      exact List.any_eq_true.mpr
        ⟨Detector.protectedImageDet, h1, by simp [imageDetectorVetoes, himg]⟩

/-- A raw configuration used to instantiate C6: one cleanup entry with an
images section with no exclude/age keys. -/
def c6Raw : RawConfiguration :=
  { general := { runEvery := "1h", logLocation := "/var/log/cleaner", logLevel := "info" },
    cleanup := [{ openstackAuthUrl := "http:auth", tenant := "t",
                  credentials := [{ username := "alice", password := "pw" }],
                  instances := none,
                  images := some { exclude := none, removeIfOlderThan := none,
                                   removeOnlyIfUnused := none },
                  keyPairs := none }] }

/-- The configuration `c6Raw` parses to. -/
def c6Cfg : Configuration :=
  { runPeriod := 3600, logLocation := "/var/log/cleaner", logLevel := 20,
    credentials := [{ authUrl := "http:auth", tenant := "t",
                      username := "alice", password := "pw" }],
    cleanupAreas := { instancesDetectors := none,
                      imagesDetectors :=
                        some [Detector.protectedImageDet, Detector.imageInUseDet],
                      keyPairsDetectors := none } }

/-- Witness for C6 at a concrete configuration and a concrete protected
image: both detectors are installed and the image is vetoed. -/
theorem c6_witness :
    Detector.protectedImageDet ∈ [Detector.protectedImageDet, Detector.imageInUseDet]
    ∧ Detector.imageInUseDet ∈ [Detector.protectedImageDet, Detector.imageInUseDet]
    ∧ ([Detector.protectedImageDet, Detector.imageInUseDet].any
        (fun d => imageDetectorVetoes (fun _ _ => false) 100 [] d
          { identifier := "img-1", name := "golden", created_at := 99, updated_at := 99,
            «protected» := true })) = true := by
  have h := c6_protected_image_always_kept (fun s => some s) (fun _ => some 3600)
    (fun _ => (20 : Int)) c6Raw c6Cfg rfl
    [Detector.protectedImageDet, Detector.imageInUseDet] rfl
  exact ⟨h.1, h.2.1, h.2.2 (fun _ _ => false) 100 []
    { identifier := "img-1", name := "golden", created_at := 99, updated_at := 99,
      «protected» := true } rfl⟩

lemma excludePart_shape (rcmp : String → Option String) (p : RawAreaConfig)
    (d1 : List Detector) (h : excludePart rcmp p = .ok d1) :
    d1 = [] ∨ ∃ cs, d1 = [Detector.excludeDet cs] := by
  cases hi : p.exclude with
  | none => simp [excludePart, hi] at h; exact .inl h
  | some pats =>
    cases hc : compileAll rcmp pats with
    | error e => simp [excludePart, hi, hc] at h
    | ok cs => simp [excludePart, hi, hc] at h; exact .inr ⟨cs, h.symm⟩

lemma olderThanPart_shape (tdp : String → Option Nat) (p : RawAreaConfig)
    (d2 : List Detector) (h : olderThanPart tdp p = .ok d2) :
    d2 = [] ∨ ∃ n, d2 = [Detector.olderThanDet n] := by
  cases hi : p.removeIfOlderThan with
  | none => simp [olderThanPart, hi] at h; exact .inl h
  | some s =>
    cases hc : tdp s with
    | none => simp [olderThanPart, hi, hc] at h
    | some n => simp [olderThanPart, hi, hc] at h; exact .inr ⟨n, h.symm⟩

lemma createCommon_no_keypair_det (rcmp : String → Option String)
    (tdp : String → Option Nat) (p : RawAreaConfig) (ds : List Detector)
    (h : createCommonPreventDeleteDetectors rcmp tdp p = .ok ds) :
    Detector.keyPairInUseDet ∉ ds := by
  unfold createCommonPreventDeleteDetectors at h
  cases h1 : excludePart rcmp p with
  | error e => rw [h1] at h; cases h
  | ok d1 =>
    rw [h1] at h
    cases h2 : olderThanPart tdp p with
    | error e => rw [h2] at h; cases h
    | ok d2 =>
      rw [h2] at h
      injection h with h
      subst h
      intro hmem
      rcases List.mem_append.mp hmem with hm | hm
      · rcases excludePart_shape rcmp p d1 h1 with rfl | ⟨cs, rfl⟩
        · cases hm
        · simp at hm
      · rcases olderThanPart_shape tdp p d2 h2 with rfl | ⟨n, rfl⟩
        · cases hm
        · simp at hm

/-- C7: the key-pair in-use detector is installed if and only if the
"remove-only-if-unused" key is present and truthy; when it is explicitly
disabled, the detector contributes no veto even for a key-pair referenced by
a running instance, and when enabled, a referenced key-pair is vetoed. -/
theorem c7_keypair_in_use_opt_in (rcmp : String → Option String)
    (tdp : String → Option Nat) (p : RawAreaConfig) (L : List Detector)
    (h : parseKeyPairsDetectors rcmp tdp p = .ok L) :
    (Detector.keyPairInUseDet ∈ L ↔ p.removeOnlyIfUnused = some true)
    ∧ (p.removeOnlyIfUnused = some false →
      ∀ (instances : List OpenstackInstance) (kp : OpenstackKeypair),
        (L.filter (fun d => d == Detector.keyPairInUseDet)).any
          (fun _ => keyPairInUseVeto instances kp) = false)
    ∧ (p.removeOnlyIfUnused = some true →
      ∀ (instances : List OpenstackInstance) (kp : OpenstackKeypair),
        keyPairInUseVeto instances kp = true →
        L.any (fun d => d == Detector.keyPairInUseDet
          && keyPairInUseVeto instances kp) = true) := by
  unfold parseKeyPairsDetectors at h
  cases hc : createCommonPreventDeleteDetectors rcmp tdp p with
  | error e => rw [hc] at h; cases h
  | ok ds =>
    rw [hc] at h
    have hnk := createCommon_no_keypair_det rcmp tdp p ds hc
    cases hflag : p.removeOnlyIfUnused with
    | none => rw [hflag] at h; cases h
    | some b =>
      rw [hflag] at h
      injection h with h
      subst h
      cases b with
      | true =>
        refine ⟨⟨fun _ => rfl, fun _ => by simp⟩, ?_, ?_⟩
        · intro hcontra; cases hcontra
        · intro _ instances kp hveto
          exact List.any_eq_true.mpr
            ⟨Detector.keyPairInUseDet, by simp, by simp [hveto]⟩
      | false =>
        simp only [if_neg (by simp : ¬(false = true))]
        refine ⟨⟨fun hmem => absurd hmem hnk, fun hcontra => by cases hcontra⟩, ?_, ?_⟩
        · intro _ instances kp
          have hfil : ds.filter (fun d => d == Detector.keyPairInUseDet) = [] := by
            rw [List.filter_eq_nil_iff]
            intro a ha
            simp only [beq_iff_eq]
            intro hcontra
            subst hcontra
            exact hnk ha
          rw [hfil]
          rfl
        · intro hcontra; cases hcontra

/-- Witness for C7 at a concrete policy requesting "remove only if unused"
and a key-pair referenced by a running instance: the detector is installed
and vetoes. -/
theorem c7_witness :
    (Detector.keyPairInUseDet ∈ ([Detector.keyPairInUseDet] : List Detector)
      ↔ (some true : Option Bool) = some true)
    ∧ ([Detector.keyPairInUseDet] : List Detector).any
        (fun d => d == Detector.keyPairInUseDet
          && keyPairInUseVeto
            [{ identifier := "i-1", name := "vm", created_at := 0, updated_at := 0,
               image := "img", key_name := some "kp" }]
            { identifier := "kp", name := "kp", fingerprint := "fp" }) = true := by
  have h := c7_keypair_in_use_opt_in (fun s => some s) (fun _ => some 0)
    { exclude := none, removeIfOlderThan := none, removeOnlyIfUnused := some true }
    [Detector.keyPairInUseDet] rfl
  exact ⟨h.1, h.2.2 rfl
    [{ identifier := "i-1", name := "vm", created_at := 0, updated_at := 0,
       image := "img", key_name := some "kp" }]
    { identifier := "kp", name := "kp", fingerprint := "fp" } (by decide)⟩

lemma compileAll_error (rcmp : String → Option String) (pats : List String)
    (hbad : ∃ s ∈ pats, rcmp s = none) :
    ∃ e, compileAll rcmp pats = .error e := by
  induction pats with
  | nil => obtain ⟨s, hs, _⟩ := hbad; cases hs
  | cons p ps ih =>
    cases hp : rcmp p with
    | none => exact ⟨.regexError, by simp [compileAll, hp]⟩
    | some c =>
      obtain ⟨s, hs, hrs⟩ := hbad
      rcases List.mem_cons.mp hs with rfl | hs2
      · rw [hp] at hrs; cases hrs
      · obtain ⟨e, he⟩ := ih ⟨s, hs2, hrs⟩
        exact ⟨e, by simp [compileAll, hp, he, Except.map]⟩

lemma createCommon_error (rcmp : String → Option String) (tdp : String → Option Nat)
    (p : RawAreaConfig)
    (hbad : (∃ pats, p.exclude = some pats ∧ ∃ s ∈ pats, rcmp s = none)
          ∨ (∃ s, p.removeIfOlderThan = some s ∧ tdp s = none)) :
    ∃ e, createCommonPreventDeleteDetectors rcmp tdp p = .error e := by
  rcases hbad with ⟨pats, hp, hbad⟩ | ⟨s, hs, ht⟩
  · obtain ⟨e, he⟩ := compileAll_error rcmp pats hbad
    exact ⟨e, by simp [createCommonPreventDeleteDetectors, excludePart, hp, he]⟩
  · cases h1 : excludePart rcmp p with
    | error e => exact ⟨e, by simp [createCommonPreventDeleteDetectors, h1]⟩
    | ok d1 =>
      exact ⟨.timedeltaError, by
        simp [createCommonPreventDeleteDetectors, h1, olderThanPart, hs, ht]⟩

lemma processCleanupEntry_error (rcmp : String → Option String)
    (tdp : String → Option Nat) (rc : RawCleanup)
    (h : (∃ p e, rc.images = some p ∧ parseImagesDetectors rcmp tdp p = .error e)
       ∨ (∃ p e, rc.instances = some p ∧ parseInstancesDetectors rcmp tdp p = .error e)
       ∨ (∃ p e, rc.keyPairs = some p ∧ parseKeyPairsDetectors rcmp tdp p = .error e)) :
    ∀ st, ∃ e, processCleanupEntry rcmp tdp st rc = .error e := by
  intro st
  rcases h with ⟨p, e, hp, he⟩ | ⟨p, e, hp, he⟩ | ⟨p, e, hp, he⟩
  · exact ⟨e, by simp [processCleanupEntry, applyImagesBranch, hp, he]⟩
  · cases h1 : applyImagesBranch rcmp tdp rc st.2 with
    | error e1 => exact ⟨e1, by simp [processCleanupEntry, h1]⟩
    | ok a1 =>
      exact ⟨e, by simp [processCleanupEntry, h1, applyInstancesBranch, hp, he]⟩
  · cases h1 : applyImagesBranch rcmp tdp rc st.2 with
    | error e1 => exact ⟨e1, by simp [processCleanupEntry, h1]⟩
    | ok a1 =>
      cases h2 : applyInstancesBranch rcmp tdp rc a1 with
      | error e2 => exact ⟨e2, by simp [processCleanupEntry, h1, h2]⟩
      | ok a2 =>
        exact ⟨e, by simp [processCleanupEntry, h1, h2, applyKeyPairsBranch, hp, he]⟩

lemma foldCleanup_never_ok (rcmp : String → Option String) (tdp : String → Option Nat)
    (rc : RawCleanup)
    (hfail : ∀ st, ∃ e, processCleanupEntry rcmp tdp st rc = .error e) :
    ∀ l, rc ∈ l → ∀ st out, foldCleanup rcmp tdp l st ≠ .ok out := by
  intro l
  induction l with
  | nil => intro hmem; cases hmem
  | cons hd tl ih =>
    intro hmem st out h
    rcases List.mem_cons.mp hmem with rfl | hm
    · obtain ⟨e, he⟩ := hfail st
      simp [foldCleanup, he] at h
    · cases hE : processCleanupEntry rcmp tdp st hd with
      | error e => simp [foldCleanup, hE] at h
      | ok st2 =>
        rw [show foldCleanup rcmp tdp (hd :: tl) st
            = (match processCleanupEntry rcmp tdp st hd with
               | .error e => .error e
               | .ok st2 => foldCleanup rcmp tdp tl st2) from rfl, hE] at h
        exact ih hm st2 out h

lemma parseConfiguration_error_of_entry (rcmp : String → Option String)
    (tdp : String → Option Nat) (getLevel : String → Int) (raw : RawConfiguration)
    (rc : RawCleanup) (hmem : rc ∈ raw.cleanup)
    (hfail : ∀ st, ∃ e, processCleanupEntry rcmp tdp st rc = .error e) :
    ∃ e, parseConfiguration rcmp tdp getLevel raw = .error e := by
  cases ht : tdp raw.general.runEvery with
  | none => exact ⟨.timedeltaError, by simp [parseConfiguration, ht]⟩
  | some n =>
    cases hf : foldCleanup rcmp tdp raw.cleanup ([], {}) with
    | error e => exact ⟨e, by simp [parseConfiguration, ht, hf]⟩
    | ok st =>
      exact absurd hf
        (foldCleanup_never_ok rcmp tdp rc hfail raw.cleanup hmem ([], {}) st)

/-- C8: a configuration containing a detector with invalid parameters — an
exclude pattern `re.compile` raises on, or a duration `parse_timedelta`
raises on — makes `parse_configuration` itself fail.  `parseConfiguration`
takes no backend and constructs no client: the failure happens before any
backend call could be made. -/
theorem c8_invalid_detector_params_fail_fast (rcmp : String → Option String)
    (tdp : String → Option Nat) (getLevel : String → Int) (raw : RawConfiguration)
    (rc : RawCleanup) (p : RawAreaConfig)
    (hmem : rc ∈ raw.cleanup)
    (hsec : rc.images = some p ∨ rc.instances = some p ∨ rc.keyPairs = some p)
    (hbad : (∃ pats, p.exclude = some pats ∧ ∃ s ∈ pats, rcmp s = none)
          ∨ (∃ s, p.removeIfOlderThan = some s ∧ tdp s = none)) :
    ∃ e, parseConfiguration rcmp tdp getLevel raw = .error e := by
  obtain ⟨e, he⟩ := createCommon_error rcmp tdp p hbad
  have hbranch : (∃ p2 e2, rc.images = some p2
        ∧ parseImagesDetectors rcmp tdp p2 = .error e2)
      ∨ (∃ p2 e2, rc.instances = some p2
        ∧ parseInstancesDetectors rcmp tdp p2 = .error e2)
      ∨ (∃ p2 e2, rc.keyPairs = some p2
        ∧ parseKeyPairsDetectors rcmp tdp p2 = .error e2) := by
    rcases hsec with h | h | h
    · exact .inl ⟨p, e, h, by simp [parseImagesDetectors, he]⟩
    · exact .inr (.inl ⟨p, e, h, by simp [parseInstancesDetectors, he]⟩)
    · exact .inr (.inr ⟨p, e, h, by simp [parseKeyPairsDetectors, he]⟩)
  exact parseConfiguration_error_of_entry rcmp tdp getLevel raw rc hmem
    (processCleanupEntry_error rcmp tdp rc hbranch)

/-- A raw configuration used to instantiate C8: its only cleanup entry has an
images section whose exclude list holds a pattern the regex compiler rejects. -/
def c8Raw : RawConfiguration :=
  { general := { runEvery := "1h", logLocation := "/var/log/cleaner", logLevel := "info" },
    cleanup := [{ openstackAuthUrl := "http:auth", tenant := "t", credentials := [],
                  instances := none,
                  images := some { exclude := some ["("], removeIfOlderThan := none,
                                   removeOnlyIfUnused := none },
                  keyPairs := none }] }

/-- Witness for C8: with a regex compiler that rejects every pattern,
parsing `c8Raw` fails. -/
theorem c8_witness :
    ∃ e, parseConfiguration (fun _ => none) (fun _ => some 60) (fun _ => (20 : Int))
      c8Raw = .error e :=
  c8_invalid_detector_params_fail_fast (fun _ => none) (fun _ => some 60)
    (fun _ => (20 : Int)) c8Raw
    { openstackAuthUrl := "http:auth", tenant := "t", credentials := [],
      instances := none,
      images := some { exclude := some ["("], removeIfOlderThan := none,
                       removeOnlyIfUnused := none },
      keyPairs := none }
    { exclude := some ["("], removeIfOlderThan := none, removeOnlyIfUnused := none }
    (List.mem_singleton.mpr rfl)
    (Or.inl rfl)
    (Or.inl ⟨["("], rfl, "(", List.mem_singleton.mpr rfl, rfl⟩)

/-- C10: a key-pairs cleanup section without the "remove-only-if-unused" key
makes the key-pairs branch raise `KeyError` (the key is read unconditionally
once the common detectors parse), and `parse_configuration` never accepts
such a configuration. -/
theorem c10_keypairs_key_mandatory (rcmp : String → Option String)
    (tdp : String → Option Nat) (getLevel : String → Int) (raw : RawConfiguration)
    (rc : RawCleanup) (p : RawAreaConfig)
    (hmem : rc ∈ raw.cleanup) (hkp : rc.keyPairs = some p)
    (hmiss : p.removeOnlyIfUnused = none) :
    (∀ ds, createCommonPreventDeleteDetectors rcmp tdp p = .ok ds →
      parseKeyPairsDetectors rcmp tdp p = .error .keyError)
    ∧ ∃ e, parseConfiguration rcmp tdp getLevel raw = .error e := by
  have hbr : ∃ e, parseKeyPairsDetectors rcmp tdp p = .error e := by
    cases hc : createCommonPreventDeleteDetectors rcmp tdp p with
    | error e => exact ⟨e, by simp [parseKeyPairsDetectors, hc]⟩
    | ok ds => exact ⟨.keyError, by simp [parseKeyPairsDetectors, hc, hmiss]⟩
  obtain ⟨e, he⟩ := hbr
  refine ⟨?_, ?_⟩
  · intro ds hds
    simp [parseKeyPairsDetectors, hds, hmiss]
  · exact parseConfiguration_error_of_entry rcmp tdp getLevel raw rc hmem
      (processCleanupEntry_error rcmp tdp rc (.inr (.inr ⟨p, e, hkp, he⟩)))

/-- A raw configuration used to instantiate C10: its only cleanup entry has a
key-pairs section that omits the "remove-only-if-unused" key. -/
def c10Raw : RawConfiguration :=
  { general := { runEvery := "1h", logLocation := "/var/log/cleaner", logLevel := "info" },
    cleanup := [{ openstackAuthUrl := "http:auth", tenant := "t", credentials := [],
                  instances := none,
                  images := none,
                  keyPairs := some { exclude := none, removeIfOlderThan := none,
                                     removeOnlyIfUnused := none } }] }

/-- Witness for C10: the key-pairs branch raises `KeyError` on the section of
`c10Raw` and the whole parse fails. -/
theorem c10_witness :
    parseKeyPairsDetectors (fun s => some s) (fun _ => some 60)
      { exclude := none, removeIfOlderThan := none, removeOnlyIfUnused := none }
      = .error .keyError
    ∧ ∃ e, parseConfiguration (fun s => some s) (fun _ => some 60)
        (fun _ => (20 : Int)) c10Raw = .error e := by
  have h := c10_keypairs_key_mandatory (fun s => some s) (fun _ => some 60)
    (fun _ => (20 : Int)) c10Raw
    { openstackAuthUrl := "http:auth", tenant := "t", credentials := [],
      instances := none, images := none,
      keyPairs := some { exclude := none, removeIfOlderThan := none,
                         removeOnlyIfUnused := none } }
    { exclude := none, removeIfOlderThan := none, removeOnlyIfUnused := none }
    (List.mem_singleton.mpr rfl) rfl rfl
  exact ⟨h.1 [] rfl, h.2⟩

end OpenstackTenantCleaner
